import Mathlib

/-!
Shallow embedding of the plant-store backend
(`plant_store/products/models.py`, `serializers.py`, `views.py`).

Monetary amounts (`price`, `total_price`) are modelled in cents as `Int`
(Django `DecimalField(decimal_places=2)`); `stock` and `quantity` are
modelled as `Int` so that the non-negativity invariant of the database
column (`PositiveIntegerField`) is a provable property of the guarded
code rather than a consequence of truncating subtraction.

Requests are modelled after permission checking and DRF serializer
validation as they run in the views: an anonymous caller is `none`,
an authenticated caller is `some user` (Django hands the view the full
user row, so the caller is a `User` value, not an id).
-/

namespace PlantStore

/-- `User` model (`models.py`): the fields the core logic reads. -/
structure User where
  id : Nat
  username : String
  is_seller : Bool
deriving DecidableEq, Repr

/-- `Product` model (`models.py`): id, name, price (cents), category,
stock, owning seller (user id). -/
structure Product where
  id : Nat
  name : String
  price : Int
  category : String
  stock : Int
  seller : Nat
deriving DecidableEq, Repr

/-- `SoldProduct` model (`models.py`): an order row. -/
structure SoldProduct where
  id : Nat
  product_id : Nat
  buyer_id : Nat
  quantity : Int
  total_price : Int
  status : String
  shipping_address : String
deriving DecidableEq, Repr

/-- The database: user, product and sold-product tables, plus the next
primary key for order rows. -/
structure StoreState where
  users : List User
  products : List Product
  soldProducts : List SoldProduct
  nextOrderId : Nat
deriving DecidableEq, Repr

/-- `SoldProduct.STATUS_CHOICES` (`models.py`). -/
def STATUS_CHOICES : List String :=
  ["Pending", "Processing", "Shipped", "Delivered", "Cancelled"]

/-- DRF validation of the optional `status` field of
`SoldProductSerializer`: absent is fine (model default applies),
a supplied value must be one of the choices. -/
def statusValid (s : Option String) : Bool :=
  match s with
  | none => true
  | some v => STATUS_CHOICES.contains v

/-- Primary-key lookup in the product table
(`PrimaryKeyRelatedField(queryset=Product.objects.all())` resolution,
and `get_object` pk lookup). -/
def findProduct (ps : List Product) (pid : Nat) : Option Product :=
  ps.find? (fun p => p.id = pid)

/-- Primary-key lookup in a user queryset (`get_object` pk lookup). -/
def findUser (us : List User) (uid : Nat) : Option User :=
  us.find? (fun u => u.id = uid)

/-- `product.stock -= quantity; product.save()`: writes the decremented
stock back to the product row with the given pk. -/
def updateStock (ps : List Product) (pid : Nat) (q : Int) : List Product :=
  ps.map (fun p => if p.id = pid then { p with stock := p.stock - q } else p)

/-- Body of a `POST /sold-products` request, after HTTP parsing:
`product_id`, `quantity`, client-supplied `total_price`, optional
`status`, `shipping_address` (`SoldProductSerializer` writable fields;
`buyer` is read-only). -/
structure PurchaseRequest where
  product_id : Nat
  quantity : Int
  total_price : Int
  status : Option String
  shipping_address : String
deriving DecidableEq, Repr

/-- Outcomes of a failed `POST /sold-products`. -/
inductive PurchaseError where
  | notAuthenticated : PurchaseError
  | productNotFound : PurchaseError
  | invalidQuantity : PurchaseError
  | invalidStatus : PurchaseError
  | insufficientStock : Int → String → PurchaseError
deriving DecidableEq, Repr

/-- `POST /sold-products`: `IsAuthenticated` permission, then
`SoldProductSerializer` validation (`product_id` must resolve,
`quantity` is a `PositiveIntegerField`, so the serializer rejects
negative values but accepts 0, `status` must be a valid choice), then
`SoldProductViewSet.perform_create` (`views.py`): the stock guard, the
stock write-back, and the insert of the order row with
`buyer = request.user` and `status` defaulting to `Pending`.
Returns the database after the request together with the response. -/
def soldProduct_perform_create (st : StoreState) (caller : Option User)
    (req : PurchaseRequest) : StoreState × Except PurchaseError SoldProduct :=
  match caller with
  | none => (st, .error .notAuthenticated)
  | some buyer =>
    match findProduct st.products req.product_id with
    | none => (st, .error .productNotFound)
    | some product =>
      if req.quantity < 0 then (st, .error .invalidQuantity)
      else if ¬ statusValid req.status then (st, .error .invalidStatus)
      else if product.stock < req.quantity then
        (st, .error (.insufficientStock product.stock
          ("Not enough stock available. Only " ++ toString product.stock
            ++ " items left.")))
      else
        let sp : SoldProduct :=
          { id := st.nextOrderId
            product_id := product.id
            buyer_id := buyer.id
            quantity := req.quantity
            total_price := req.total_price
            status := req.status.getD "Pending"
            shipping_address := req.shipping_address }
        ({ st with
            products := updateStock st.products product.id req.quantity
            soldProducts := st.soldProducts ++ [sp]
            nextOrderId := st.nextOrderId + 1 },
         .ok sp)

/-- `ProductViewSet.get_queryset` (`views.py`): an authenticated seller
gets `Product.objects.all()`; everyone else gets
`Product.objects.filter(stock__gt=0)`; then the optional category
equality filter. -/
def product_get_queryset (st : StoreState) (caller : Option User)
    (category : Option String) : List Product :=
  let queryset :=
    match caller with
    | some u =>
      if u.is_seller then st.products
      else st.products.filter (fun p => 0 < p.stock)
    | none => st.products.filter (fun p => 0 < p.stock)
  match category with
  | some c => queryset.filter (fun p => p.category = c)
  | none => queryset

/-- Gate for `PATCH`/`DELETE /products/:id` (`views.py`): the
`update`/`destroy` actions require `IsAuthenticated` and `IsSeller`
(`request.user.is_seller`), and `get_object` then looks the pk up in
`get_queryset` for this caller; `true` means the request reaches the
object. No ownership test appears anywhere on this path. -/
def product_write_allowed (st : StoreState) (caller : Option User)
    (pid : Nat) : Bool :=
  match caller with
  | none => false
  | some u =>
    u.is_seller && (findProduct (product_get_queryset st (some u) none) pid).isSome

/-- `PATCH /products/:id` changing the price: when allowed, writes the
new price to the product row; `SoldProduct` rows are not touched by
this handler. Returns the database and whether the write happened. -/
def product_update_price (st : StoreState) (caller : Option User)
    (pid : Nat) (newPrice : Int) : StoreState × Bool :=
  if product_write_allowed st caller pid then
    ({ st with
        products := st.products.map
          (fun p => if p.id = pid then { p with price := newPrice } else p) },
     true)
  else (st, false)

/-- `DELETE /products/:id`: when allowed, deletes the product row; the
`SoldProduct.product` foreign key has `on_delete=models.CASCADE`
(`models.py`), so every order row referencing the product is deleted
with it. -/
def product_destroy (st : StoreState) (caller : Option User)
    (pid : Nat) : StoreState × Bool :=
  if product_write_allowed st caller pid then
    ({ st with
        products := st.products.filter (fun p => ¬ p.id = pid)
        soldProducts := st.soldProducts.filter (fun sp => ¬ sp.product_id = pid) },
     true)
  else (st, false)

/-- `UserViewSet.get_queryset` (`views.py`):
`User.objects.filter(id=self.request.user.id)` — the queryset backing
user detail, update and delete. -/
def user_get_queryset (st : StoreState) (caller : User) : List User :=
  st.users.filter (fun u => u.id = caller.id)

/-- Runs a sequence of `POST /sold-products` requests, each by its own
caller, threading the database through. -/
def runPurchases (st : StoreState)
    (ops : List (Option User × PurchaseRequest)) : StoreState :=
  ops.foldl (fun s op => (soldProduct_perform_create s op.1 op.2).1) st

/-- All product rows have non-negative stock
(the `PositiveIntegerField` column invariant). -/
def stocksNonneg (st : StoreState) : Prop :=
  ∀ p ∈ st.products, 0 ≤ p.stock

/-- Product primary keys are distinct (database pk integrity). -/
def productIdsNodup (st : StoreState) : Prop :=
  (st.products.map (fun p => p.id)).Nodup

instance (st : StoreState) : Decidable (stocksNonneg st) := by
  unfold stocksNonneg; infer_instance

instance (st : StoreState) : Decidable (productIdsNodup st) := by
  unfold productIdsNodup; infer_instance

/-! Concrete sample rows, used to evaluate the model on closed inputs. -/

/-- A seller account. -/
def alice : User := { id := 1, username := "alice", is_seller := true }

/-- A buyer (non-seller) account. -/
def bert : User := { id := 2, username := "bert", is_seller := false }

/-- A second, unrelated seller account. -/
def carol : User := { id := 3, username := "carol", is_seller := true }

/-- A product owned by `alice` with stock 5 and price 5.00. -/
def fern : Product :=
  { id := 10, name := "Fern", price := 500, category := "Plants",
    stock := 5, seller := 1 }

/-- A product owned by `carol` with stock 0. -/
def cactus : Product :=
  { id := 11, name := "Cactus", price := 300, category := "Plants",
    stock := 0, seller := 3 }

/-- A store with the three accounts and two products, no orders yet. -/
def sampleState : StoreState :=
  { users := [alice, bert, carol], products := [fern, cactus],
    soldProducts := [], nextOrderId := 1 }

/-- A valid purchase request for one `fern` with no explicit status. -/
def reqOneFern : PurchaseRequest :=
  { product_id := 10, quantity := 1, total_price := 500,
    status := none, shipping_address := "Street 1" }

/-- The order row that `reqOneFern` by `bert` creates in `sampleState`. -/
def orderOneFern : SoldProduct :=
  { id := 1, product_id := 10, buyer_id := 2, quantity := 1,
    total_price := 500, status := "Pending", shipping_address := "Street 1" }

/-- A valid purchase request for five ferns (the whole stock). -/
def reqFiveFern : PurchaseRequest :=
  { product_id := 10, quantity := 5, total_price := 2500,
    status := none, shipping_address := "Street 1" }

/-- A short sequence of purchase attempts, some of which fail. -/
def sampleOps : List (Option User × PurchaseRequest) :=
  [(some bert, reqOneFern), (some bert, reqFiveFern), (none, reqOneFern)]

/-- `sampleState` after `bert` bought one `fern`. -/
def stateWithOrder : StoreState :=
  { users := [alice, bert, carol],
    products := [{ fern with stock := 4 }, cactus],
    soldProducts := [orderOneFern], nextOrderId := 2 }

/-- Writing the decremented stock back and re-reading the same pk
returns the decremented row. -/
lemma findProduct_updateStock (ps : List Product) (pid : Nat) (q : Int) :
    findProduct (updateStock ps pid q) pid
      = (findProduct ps pid).map (fun p => { p with stock := p.stock - q }) := by
  induction ps with
  | nil => rfl
  | cons a t ih =>
    by_cases h : a.id = pid
    · simp [findProduct, updateStock, List.find?, h]
    · simp only [findProduct, updateStock, List.map_cons, List.find?] at ih ⊢
      simp only [h, if_neg h, decide_eq_true_eq, ite_false]
      simpa [h] using ih

/-- The stock write-back keeps the set of primary keys. -/
lemma updateStock_map_id (ps : List Product) (pid : Nat) (q : Int) :
    (updateStock ps pid q).map (fun p => p.id) = ps.map (fun p => p.id) := by
  unfold updateStock
  rw [List.map_map]
  apply List.map_congr_left
  intro a _
  by_cases h : a.id = pid <;> simp [h]

/-- Decrementing by zero leaves the product table unchanged. -/
lemma updateStock_zero (ps : List Product) (pid : Nat) :
    updateStock ps pid 0 = ps := by
  unfold updateStock
  have h : ∀ p ∈ ps,
      (if p.id = pid then { p with stock := p.stock - 0 } else p) = p := by
    intro p _
    by_cases hp : p.id = pid
    · rw [if_pos hp, Int.sub_zero]
    · rw [if_neg hp]
  rw [List.map_congr_left h, List.map_id']

/-- With distinct primary keys, pk lookup of a member row finds exactly
that row. -/
lemma findProduct_of_mem_nodup {ps : List Product} {p : Product}
    (hnd : (ps.map (fun x => x.id)).Nodup) (hmem : p ∈ ps) :
    findProduct ps p.id = some p := by
  induction ps with
  | nil => cases hmem
  | cons a t ih =>
    rw [List.map_cons, List.nodup_cons] at hnd
    rcases List.mem_cons.mp hmem with rfl | hm
    · simp [findProduct, List.find?]
    · by_cases h : a.id = p.id
      · exact absurd (h ▸ List.mem_map_of_mem (fun x => x.id) hm) hnd.1
      · simp only [findProduct, List.find?, decide_eq_true_eq, h, ite_false]
        exact ih hnd.2 hm

/-- A successful pk lookup returns a row carrying that pk. -/
lemma findProduct_id {ps : List Product} {pid : Nat} {p : Product}
    (h : findProduct ps pid = some p) : p.id = pid := by
  have := List.find?_some h
  simpa using this

/-- One `POST /sold-products` request preserves non-negative stocks and
distinct product pks: the guard `product.stock < quantity` fails only
when the decrement cannot underflow. -/
lemma perform_create_preserves (st : StoreState) (c : Option User)
    (req : PurchaseRequest) (h1 : stocksNonneg st) (h2 : productIdsNodup st) :
    stocksNonneg (soldProduct_perform_create st c req).1 ∧
      productIdsNodup (soldProduct_perform_create st c req).1 := by
  unfold soldProduct_perform_create
  cases c with
  | none => exact ⟨h1, h2⟩
  | some buyer =>
    cases hfp : findProduct st.products req.product_id with
    | none => exact ⟨h1, h2⟩
    | some product =>
      by_cases hneg : req.quantity < 0
      · simp only [if_pos hneg]; exact ⟨h1, h2⟩
      simp only [if_neg hneg]
      by_cases hstat : ¬ statusValid req.status = true
      · simp only [if_pos hstat]; exact ⟨h1, h2⟩
      simp only [if_neg hstat]
      by_cases hstock : product.stock < req.quantity
      · simp only [if_pos hstock]; exact ⟨h1, h2⟩
      simp only [if_neg hstock]
      constructor
      · show ∀ p ∈ updateStock st.products product.id req.quantity, 0 ≤ p.stock
        intro p hp
        simp only [updateStock, List.mem_map] at hp
        rcases hp with ⟨a, ha, rfl⟩
        by_cases h : a.id = product.id
        · have hfa : findProduct st.products a.id = some a :=
            findProduct_of_mem_nodup h2 ha
          rw [h, findProduct_id hfp] at hfa
          rw [hfp] at hfa
          injection hfa with hpa
          subst hpa
          rw [if_pos h]
          show 0 ≤ product.stock - req.quantity
          omega
        · simpa [h] using h1 a ha
      · show ((updateStock st.products product.id req.quantity).map
          (fun p => p.id)).Nodup
        rw [updateStock_map_id]
        exact h2

/-- Every sequence of purchase requests preserves non-negative stocks
and distinct product pks. -/
lemma runPurchases_preserves (ops : List (Option User × PurchaseRequest))
    (st : StoreState) (h1 : stocksNonneg st) (h2 : productIdsNodup st) :
    stocksNonneg (runPurchases st ops) ∧ productIdsNodup (runPurchases st ops) := by
  induction ops generalizing st with
  | nil => exact ⟨h1, h2⟩
  | cons op t ih =>
    have h := perform_create_preserves st op.1 op.2 h1 h2
    simpa [runPurchases, List.foldl_cons] using
      ih (soldProduct_perform_create st op.1 op.2).1 h.1 h.2

/-- Any failed `POST /sold-products` leaves the database untouched: in
`perform_create` the `ValidationError` is raised before `product.save()`
and `serializer.save()` run. -/
lemma perform_create_error_no_mutation (st : StoreState) (c : Option User)
    (req : PurchaseRequest) (e : PurchaseError)
    (h : (soldProduct_perform_create st c req).2 = .error e) :
    (soldProduct_perform_create st c req).1 = st := by
  unfold soldProduct_perform_create at h ⊢
  cases c with
  | none => rfl
  | some buyer =>
    cases hfp : findProduct st.products req.product_id with
    | none => rfl
    | some product =>
      rw [hfp] at h
      simp only [] at h ⊢
      by_cases h1 : req.quantity < 0
      · rw [if_pos h1]
      rw [if_neg h1] at h ⊢
      by_cases h2 : ¬ statusValid req.status = true
      · rw [if_pos h2]
      rw [if_neg h2] at h ⊢
      by_cases h3 : product.stock < req.quantity
      · rw [if_pos h3]
      rw [if_neg h3] at h
      simp at h

/-- Inversion of a successful `POST /sold-products`: the caller was
authenticated, the product resolved, validation passed, the stock guard
held, and the inserted row is exactly the one `perform_create` builds
(`buyer` from the session, `status` defaulted, `total_price` copied
from the request). -/
lemma perform_create_ok (st : StoreState) (c : Option User)
    (req : PurchaseRequest) (sp : SoldProduct)
    (h : (soldProduct_perform_create st c req).2 = .ok sp) :
    ∃ u product, c = some u ∧
      findProduct st.products req.product_id = some product ∧
      0 ≤ req.quantity ∧ statusValid req.status = true ∧
      req.quantity ≤ product.stock ∧
      sp = { id := st.nextOrderId, product_id := product.id, buyer_id := u.id,
             quantity := req.quantity, total_price := req.total_price,
             status := req.status.getD "Pending",
             shipping_address := req.shipping_address } := by
  unfold soldProduct_perform_create at h
  cases c with
  | none => simp at h
  | some buyer =>
    cases hfp : findProduct st.products req.product_id with
    | none => rw [hfp] at h; simp at h
    | some product =>
      rw [hfp] at h
      simp only [] at h
      by_cases h1 : req.quantity < 0
      · rw [if_pos h1] at h; simp at h
      rw [if_neg h1] at h
      by_cases h2 : ¬ statusValid req.status = true
      · rw [if_pos h2] at h; simp at h
      rw [if_neg h2] at h
      by_cases h3 : product.stock < req.quantity
      · rw [if_pos h3] at h; simp at h
      rw [if_neg h3] at h
      simp only at h
      injection h with hsp
      exact ⟨buyer, product, rfl, rfl, not_lt.mp h1, not_not.mp h2,
        not_lt.mp h3, hsp.symm⟩

/-- Claim C1 (confirmed): a purchase requesting more than the current
stock fails with the insufficient-stock error carrying the current
stock in the message, and the database is unchanged: same stock, no
order row; moreover every failed purchase leaves the database
unchanged. -/
theorem insufficient_stock_fails_unchanged
    (st : StoreState) (u : User) (req : PurchaseRequest) (product : Product)
    (hfp : findProduct st.products req.product_id = some product)
    (hq : 0 ≤ req.quantity)
    (hstat : statusValid req.status = true)
    (hstock : product.stock < req.quantity) :
    soldProduct_perform_create st (some u) req =
      (st, .error (.insufficientStock product.stock
        ("Not enough stock available. Only " ++ toString product.stock
          ++ " items left."))) ∧
    ∀ (c : Option User) (req2 : PurchaseRequest) (e : PurchaseError),
      (soldProduct_perform_create st c req2).2 = .error e →
      (soldProduct_perform_create st c req2).1 = st := by
  constructor
  · unfold soldProduct_perform_create
    rw [hfp]
    simp only []
    rw [if_neg (not_lt.mpr hq), if_neg (not_not_intro hstat), if_pos hstock]
  · exact fun c req2 e h => perform_create_error_no_mutation st c req2 e h

/-- Witness for C1 on concrete data: `bert` asks for 9 ferns while only
5 are in stock. -/
theorem insufficient_stock_fails_unchanged_w :
    soldProduct_perform_create sampleState (some bert)
        { product_id := 10, quantity := 9, total_price := 4500,
          status := none, shipping_address := "Street 1" } =
      (sampleState, .error (.insufficientStock 5
        "Not enough stock available. Only 5 items left.")) :=
  (insufficient_stock_fails_unchanged sampleState bert
    { product_id := 10, quantity := 9, total_price := 4500,
      status := none, shipping_address := "Street 1" }
    fern (by decide) (by decide) (by decide) (by decide)).1

/-- Claim C3 (confirmed): an authenticated buyer purchasing no more
than the current stock succeeds: an order row is appended, the stock of
the product is decremented by exactly the quantity and persisted, and
buying the whole stock drives it to exactly 0 rather than failing. -/
theorem purchase_within_stock_succeeds
    (st : StoreState) (u : User) (req : PurchaseRequest) (product : Product)
    (hfp : findProduct st.products req.product_id = some product)
    (hq : 0 ≤ req.quantity)
    (hstat : statusValid req.status = true)
    (hstock : req.quantity ≤ product.stock) :
    ∃ sp : SoldProduct,
      (soldProduct_perform_create st (some u) req).2 = .ok sp ∧
      (soldProduct_perform_create st (some u) req).1.soldProducts
        = st.soldProducts ++ [sp] ∧
      findProduct (soldProduct_perform_create st (some u) req).1.products
          product.id
        = some { product with stock := product.stock - req.quantity } ∧
      (req.quantity = product.stock →
        findProduct (soldProduct_perform_create st (some u) req).1.products
            product.id
          = some { product with stock := 0 }) := by
  have hred : soldProduct_perform_create st (some u) req =
      ({ st with
          products := updateStock st.products product.id req.quantity
          soldProducts := st.soldProducts ++
            [{ id := st.nextOrderId, product_id := product.id, buyer_id := u.id,
               quantity := req.quantity, total_price := req.total_price,
               status := req.status.getD "Pending",
               shipping_address := req.shipping_address }]
          nextOrderId := st.nextOrderId + 1 },
       .ok { id := st.nextOrderId, product_id := product.id, buyer_id := u.id,
             quantity := req.quantity, total_price := req.total_price,
             status := req.status.getD "Pending",
             shipping_address := req.shipping_address }) := by
    unfold soldProduct_perform_create
    rw [hfp]
    simp only []
    rw [if_neg (not_lt.mpr hq), if_neg (not_not_intro hstat),
      if_neg (not_lt.mpr hstock)]
  have hfind : findProduct st.products product.id = some product := by
    rw [findProduct_id hfp]; exact hfp
  refine ⟨{ id := st.nextOrderId, product_id := product.id, buyer_id := u.id,
            quantity := req.quantity, total_price := req.total_price,
            status := req.status.getD "Pending",
            shipping_address := req.shipping_address }, ?_, ?_, ?_, ?_⟩
  · rw [hred]
  · rw [hred]
  · rw [hred]
    show findProduct (updateStock st.products product.id req.quantity)
        product.id = _
    rw [findProduct_updateStock, hfind]
    rfl
  · intro hqs
    rw [hred]
    show findProduct (updateStock st.products product.id req.quantity)
        product.id = _
    rw [findProduct_updateStock, hfind, hqs]
    simp

/-- Witness for C3 on concrete data: `bert` buys the whole stock of 5
ferns and the stock lands on exactly 0. -/
theorem purchase_within_stock_succeeds_w :
    ∃ sp : SoldProduct,
      (soldProduct_perform_create sampleState (some bert) reqFiveFern).2
        = .ok sp ∧
      (soldProduct_perform_create sampleState (some bert)
          reqFiveFern).1.soldProducts
        = sampleState.soldProducts ++ [sp] ∧
      findProduct (soldProduct_perform_create sampleState (some bert)
          reqFiveFern).1.products fern.id
        = some { fern with stock := fern.stock - reqFiveFern.quantity } ∧
      (reqFiveFern.quantity = fern.stock →
        findProduct (soldProduct_perform_create sampleState (some bert)
            reqFiveFern).1.products fern.id
          = some { fern with stock := 0 }) :=
  purchase_within_stock_succeeds sampleState bert reqFiveFern fern
    (by decide) (by decide) (by decide) (by decide)

/-- Claim C4 (confirmed): starting from non-negative stocks and distinct
product pks, stocks stay non-negative after every prefix of any sequence
of purchase attempts. -/
theorem stock_nonneg_after_purchase_sequences
    (st : StoreState) (ops : List (Option User × PurchaseRequest)) (n : Nat)
    (h1 : stocksNonneg st) (h2 : productIdsNodup st) :
    stocksNonneg (runPurchases st (ops.take n)) :=
  (runPurchases_preserves (ops.take n) st h1 h2).1

/-- Witness for C4 on concrete data: after the first two of the sample
purchase attempts all stocks are still non-negative. -/
theorem stock_nonneg_after_purchase_sequences_w :
    stocksNonneg sampleState ∧ productIdsNodup sampleState ∧
      stocksNonneg (runPurchases sampleState (sampleOps.take 2)) :=
  ⟨by decide, by decide,
    stock_nonneg_after_purchase_sequences sampleState sampleOps 2
      (by decide) (by decide)⟩

/-- Counterexample to C5: `alice`, a seller browsing the catalog, sees
`cactus`, a zero-stock product owned by the other seller `carol` — so a
seller browsing other sellers is not restricted to stock > 0. -/
theorem browsing_seller_sees_foreign_zero_stock :
    cactus ∈ product_get_queryset sampleState (some alice) none ∧
      cactus.stock = 0 ∧ cactus.seller ≠ alice.id := by decide

/-- Claim C5 (amended): an authenticated seller sees every product of
every seller, including zero-stock ones; anonymous callers and
authenticated non-sellers see exactly the products with stock > 0. -/
theorem product_list_scope (st : StoreState) (u : User) (p : Product) :
    (p ∈ product_get_queryset st (some u) none ↔
        p ∈ st.products ∧ (u.is_seller = true ∨ 0 < p.stock)) ∧
    (p ∈ product_get_queryset st none none ↔
        p ∈ st.products ∧ 0 < p.stock) := by
  constructor
  · cases hs : u.is_seller <;>
      simp [product_get_queryset, hs, List.mem_filter]
  · simp [product_get_queryset, List.mem_filter]

/-- Counterexample to C6: `carol` is a seller but not the owner of
`fern` (owned by `alice`), yet the update/delete gate lets her through. -/
theorem non_owner_seller_can_write :
    product_write_allowed sampleState (some carol) fern.id = true ∧
      fern.seller ≠ carol.id := by decide

/-- Claim C6 (amended): product update/delete requires an authenticated
caller whose `is_seller` flag is set and an existing product — and
nothing more: ownership of the product is never checked, so any
authenticated seller passes the gate for any product. -/
theorem product_write_gate (st : StoreState) (u : User) (pid : Nat)
    (p : Product) :
    product_write_allowed st none pid = false ∧
      (u.is_seller = false → product_write_allowed st (some u) pid = false) ∧
      (u.is_seller = true → findProduct st.products pid = some p →
        product_write_allowed st (some u) pid = true) := by
  refine ⟨rfl, ?_, ?_⟩
  · intro h
    simp [product_write_allowed, h]
  · intro h hf
    simp [product_write_allowed, product_get_queryset, h, hf]

/-- Witness for the amended C6: the buyer `bert` cannot write `fern`,
while the non-owning seller `carol` can. -/
theorem product_write_gate_w :
    product_write_allowed sampleState (some bert) fern.id = false ∧
      product_write_allowed sampleState (some carol) fern.id = true :=
  ⟨(product_write_gate sampleState bert fern.id fern).2.1 (by decide),
    (product_write_gate sampleState carol fern.id fern).2.2 (by decide)
      (by decide)⟩

/-- Counterexample to C2: the server never computes
`price * quantity`; `bert` buys 2 ferns priced 5.00 each while sending
`total_price = 1.23`, and the stored order carries 1.23, not 10.00. -/
theorem total_price_not_computed :
    (soldProduct_perform_create sampleState (some bert)
        { product_id := 10, quantity := 2, total_price := 123,
          status := none, shipping_address := "Street 1" }).1.soldProducts =
      [{ id := 1, product_id := 10, buyer_id := 2, quantity := 2,
         total_price := 123, status := "Pending",
         shipping_address := "Street 1" }] ∧
      fern.price * 2 = 1000 ∧ (123 : Int) ≠ 1000 := by decide

/-- Claim C2 (amended): the `total_price` of a created order is copied
verbatim from the request body (the serializer field is writable and
`perform_create` never computes `price * quantity`); later price edits
to the product leave the stored orders, hence their `total_price`,
unchanged. -/
theorem total_price_copied_from_request
    (st : StoreState) (c : Option User) (req : PurchaseRequest)
    (sp : SoldProduct) (c2 : Option User) (pid : Nat) (newPrice : Int)
    (h : (soldProduct_perform_create st c req).2 = .ok sp) :
    sp.total_price = req.total_price ∧
      (product_update_price (soldProduct_perform_create st c req).1 c2 pid
          newPrice).1.soldProducts
        = (soldProduct_perform_create st c req).1.soldProducts := by
  obtain ⟨u, product, hc, hfp, hq, hstat, hstock, hsp⟩ :=
    perform_create_ok st c req sp h
  constructor
  · rw [hsp]
  · unfold product_update_price
    split <;> rfl

/-- Witness for the amended C2 on concrete data. -/
theorem total_price_copied_from_request_w :
    orderOneFern.total_price = reqOneFern.total_price ∧
      (product_update_price (soldProduct_perform_create sampleState (some bert)
          reqOneFern).1 (some alice) 10 999).1.soldProducts
        = (soldProduct_perform_create sampleState (some bert)
            reqOneFern).1.soldProducts :=
  total_price_copied_from_request sampleState (some bert) reqOneFern
    orderOneFern (some alice) 10 999 rfl

/-- Counterexample to C7: the `status` serializer field is writable, so
a purchase posted with `status = "Shipped"` stores an order whose
status is not `Pending`. -/
theorem client_supplied_status_stored :
    (soldProduct_perform_create sampleState (some bert)
        { product_id := 10, quantity := 1, total_price := 500,
          status := some "Shipped", shipping_address := "Street 1" }).1.soldProducts =
      [{ id := 1, product_id := 10, buyer_id := 2, quantity := 1,
         total_price := 500, status := "Shipped",
         shipping_address := "Street 1" }] ∧
      "Shipped" ≠ "Pending" := by decide

/-- Claim C7 (amended): the buyer of every created order is the
authenticated caller (the `buyer` field is read-only and overridden
with `request.user`); the status defaults to `Pending` only when the
request omits it, the caller may set any of the five valid choices. -/
theorem order_buyer_is_caller_status_defaulted
    (st : StoreState) (c : Option User) (req : PurchaseRequest)
    (sp : SoldProduct)
    (h : (soldProduct_perform_create st c req).2 = .ok sp) :
    (∃ u, c = some u ∧ sp.buyer_id = u.id) ∧
      sp.status = req.status.getD "Pending" ∧
      STATUS_CHOICES.contains sp.status = true := by
  obtain ⟨u, product, hc, hfp, hq, hstat, hstock, hsp⟩ :=
    perform_create_ok st c req sp h
  refine ⟨⟨u, hc, by rw [hsp]⟩, by rw [hsp], ?_⟩
  rw [hsp]
  show STATUS_CHOICES.contains (req.status.getD "Pending") = true
  cases hs : req.status with
  | none => rfl
  | some v =>
    rw [hs] at hstat
    simpa [statusValid] using hstat

/-- Witness for the amended C7 on concrete data. -/
theorem order_buyer_is_caller_status_defaulted_w :
    (∃ u, some bert = some u ∧ orderOneFern.buyer_id = u.id) ∧
      orderOneFern.status = reqOneFern.status.getD "Pending" ∧
      STATUS_CHOICES.contains orderOneFern.status = true :=
  order_buyer_is_caller_status_defaulted sampleState (some bert) reqOneFern
    orderOneFern rfl

/-- Counterexample to C8: a purchase with quantity 0 is not rejected:
it passes the `PositiveIntegerField` validation (minimum 0) and the
stock guard, and stores an order row with quantity 0 < 1. -/
theorem quantity_zero_purchase_accepted :
    (soldProduct_perform_create sampleState (some bert)
        { product_id := 10, quantity := 0, total_price := 0,
          status := none, shipping_address := "Street 1" }).1.soldProducts =
      [{ id := 1, product_id := 10, buyer_id := 2, quantity := 0,
         total_price := 0, status := "Pending",
         shipping_address := "Street 1" }] ∧
      ¬ (1 : Int) ≤ 0 := by decide

/-- Claim C8 (amended): a purchase request with quantity 0 on a
resolvable product goes through: it creates an order row with quantity
0 and leaves the product table unchanged, so stored orders are not
guaranteed to have quantity at least 1. -/
theorem quantity_zero_goes_through
    (st : StoreState) (u : User) (req : PurchaseRequest) (product : Product)
    (hq : req.quantity = 0)
    (hfp : findProduct st.products req.product_id = some product)
    (hstat : statusValid req.status = true)
    (hstock : 0 ≤ product.stock) :
    ∃ sp : SoldProduct,
      (soldProduct_perform_create st (some u) req).2 = .ok sp ∧
      sp.quantity = 0 ∧
      (soldProduct_perform_create st (some u) req).1.products
        = st.products := by
  have hq0 : 0 ≤ req.quantity := by rw [hq]
  have hstock2 : req.quantity ≤ product.stock := by rw [hq]; exact hstock
  have hred : soldProduct_perform_create st (some u) req =
      ({ st with
          products := updateStock st.products product.id req.quantity
          soldProducts := st.soldProducts ++
            [{ id := st.nextOrderId, product_id := product.id, buyer_id := u.id,
               quantity := req.quantity, total_price := req.total_price,
               status := req.status.getD "Pending",
               shipping_address := req.shipping_address }]
          nextOrderId := st.nextOrderId + 1 },
       .ok { id := st.nextOrderId, product_id := product.id, buyer_id := u.id,
             quantity := req.quantity, total_price := req.total_price,
             status := req.status.getD "Pending",
             shipping_address := req.shipping_address }) := by
    unfold soldProduct_perform_create
    rw [hfp]
    simp only []
    rw [if_neg (not_lt.mpr hq0), if_neg (not_not_intro hstat),
      if_neg (not_lt.mpr hstock2)]
  refine ⟨{ id := st.nextOrderId, product_id := product.id, buyer_id := u.id,
            quantity := req.quantity, total_price := req.total_price,
            status := req.status.getD "Pending",
            shipping_address := req.shipping_address }, ?_, hq, ?_⟩
  · rw [hred]
  · rw [hred]
    show updateStock st.products product.id req.quantity = st.products
    rw [hq, updateStock_zero]

/-- Witness for the amended C8 on concrete data. -/
theorem quantity_zero_goes_through_w :
    ∃ sp : SoldProduct,
      (soldProduct_perform_create sampleState (some bert)
          { product_id := 10, quantity := 0, total_price := 0,
            status := none, shipping_address := "Street 1" }).2 = .ok sp ∧
      sp.quantity = 0 ∧
      (soldProduct_perform_create sampleState (some bert)
          { product_id := 10, quantity := 0, total_price := 0,
            status := none, shipping_address := "Street 1" }).1.products
        = sampleState.products :=
  quantity_zero_goes_through sampleState bert
    { product_id := 10, quantity := 0, total_price := 0,
      status := none, shipping_address := "Street 1" }
    fern (by decide) (by decide) (by decide) (by decide)

/-- Counterexample to C9: `alice` deletes her product `fern`, and the
existing order row for it disappears from the order table via the
CASCADE foreign key. -/
theorem product_delete_removes_order_rows :
    stateWithOrder.soldProducts.length = 1 ∧
      (product_destroy stateWithOrder (some alice) 10).2 = true ∧
      (product_destroy stateWithOrder (some alice) 10).1.soldProducts
        = [] := by decide

/-- Claim C9 (amended): order rows are not preserved forever — deleting
a product removes, through `on_delete=CASCADE` on the
`SoldProduct.product` foreign key, exactly the order rows referencing
that product, keeping the others. -/
theorem product_destroy_cascades_orders
    (st : StoreState) (c : Option User) (pid : Nat)
    (h : product_write_allowed st c pid = true) :
    (product_destroy st c pid).1.products
        = st.products.filter (fun p => ¬ p.id = pid) ∧
      (product_destroy st c pid).1.soldProducts
        = st.soldProducts.filter (fun sp => ¬ sp.product_id = pid) := by
  unfold product_destroy
  rw [if_pos h]
  exact ⟨rfl, rfl⟩

/-- Witness for the amended C9 on concrete data. -/
theorem product_destroy_cascades_orders_w :
    (product_destroy stateWithOrder (some alice) 10).1.products
        = stateWithOrder.products.filter (fun p => ¬ p.id = 10) ∧
      (product_destroy stateWithOrder (some alice) 10).1.soldProducts
        = stateWithOrder.soldProducts.filter
            (fun sp => ¬ sp.product_id = 10) :=
  product_destroy_cascades_orders stateWithOrder (some alice) 10 (by decide)

/-- Claim C10 (confirmed): the user queryset backing detail, update and
delete contains exactly the rows whose id is the id of the caller, and a pk
lookup for any other id in that queryset finds nothing. -/
theorem user_queryset_scoped
    (st : StoreState) (c : User) (u : User) (uid : Nat) :
    (u ∈ user_get_queryset st c ↔ u ∈ st.users ∧ u.id = c.id) ∧
      (uid ≠ c.id → findUser (user_get_queryset st c) uid = none) := by
  constructor
  · simp [user_get_queryset, List.mem_filter]
  · intro h
    unfold findUser user_get_queryset
    rw [List.find?_eq_none]
    intro x hx
    simp only [List.mem_filter, decide_eq_true_eq] at hx
    simp only [decide_eq_true_eq]
    intro hxu
    exact h (hxu ▸ hx.2)

/-- Witness for C10 on concrete data: through the queryset of `bert`, the pk
of `alice` resolves to nothing. -/
theorem user_queryset_scoped_w :
    (alice ∈ user_get_queryset sampleState bert ↔
        alice ∈ sampleState.users ∧ alice.id = bert.id) ∧
      findUser (user_get_queryset sampleState bert) 1 = none :=
  ⟨(user_queryset_scoped sampleState bert alice 1).1,
    (user_queryset_scoped sampleState bert alice 1).2 (by decide)⟩

end PlantStore
